import Mathlib

/-!
Verification development for the `catkin_tools_python` build-type plugin
(`catkin_tools_python/job.py`).  The Python source is shallowly embedded:
file contents are `String` / `List Char`, environment mappings are
association lists, stage descriptors are an inductive `Stage` type, and
the external effects (the `setup.py` read, the interpreter version probe,
the platform install-directory query) are explicit inputs.  Fallible
planning returns `Except PlanError Job`.
-/

/-- The whitespace class of Python's `\s` over bytes: space, tab, newline,
carriage return, vertical tab, form feed. -/
def wsChar (c : Char) : Bool :=
  c = ' ' || c = '\t' || c = '\n' || c = '\r' || c = '\x0b' || c = '\x0c'

/-- Python substring test `pat in s` (for `List Char`): some suffix of `s`
starts with `pat`. -/
def containsSub (pat : List Char) : List Char → Bool
  | [] => pat.isPrefixOf ([] : List Char)
  | c :: rest => pat.isPrefixOf (c :: rest) || containsSub pat rest

/-- Python substring test `pat in s` for `String`s. -/
def pyIn (pat s : String) : Bool := containsSub pat.data s.data

/-- Worker for `pyReplace`: while `skip` is positive the characters of an
occurrence already emitted as `new` are consumed without being copied;
at `skip = 0` an occurrence of `old` starting here is replaced and
scanning resumes after it (left to right, non-overlapping). -/
def pyReplaceAux (old new : List Char) : List Char → Nat → List Char
  | [], _ => []
  | _ :: rest, Nat.succ k => pyReplaceAux old new rest k
  | c :: rest, 0 =>
    if old.isPrefixOf (c :: rest) && !old.isEmpty then
      new ++ pyReplaceAux old new rest (old.length - 1)
    else
      c :: pyReplaceAux old new rest 0

/-- Python `bytes.replace(old, new)` / `str.replace(old, new)` for a
non-empty pattern `old`: replace every occurrence, scanning left to right,
non-overlapping.  (All call sites in the source use a non-empty pattern.) -/
def pyReplace (old new s : List Char) : List Char :=
  pyReplaceAux old new s 0

/-- `s.replace(old, new)` on `String`s. -/
def pyReplaceS (s old new : String) : String :=
  String.mk (pyReplace old.data new.data s.data)

/-- Python `bytes.replace(old, new, 1)`: replace the first occurrence only. -/
def replaceFirst (old new : List Char) : List Char → List Char
  | [] => if old.isPrefixOf ([] : List Char) then new else []
  | c :: rest =>
    if old.isPrefixOf (c :: rest) then new ++ (c :: rest).drop old.length
    else c :: replaceFirst old new rest

/-- Accumulator for Python `str.split()` (split on runs of whitespace,
no empty tokens). -/
def pySplitAux : List Char → List Char → List (List Char)
  | [], cur => if cur.isEmpty then [] else [cur]
  | c :: rest, cur =>
    if wsChar c then
      if cur.isEmpty then pySplitAux rest [] else cur :: pySplitAux rest []
    else
      pySplitAux rest (cur ++ [c])

/-- Python `str.split()` with no argument. -/
def pySplitL (s : List Char) : List (List Char) := pySplitAux s []

/-- Python `' '.join(tokens)`. -/
def joinTokens : List (List Char) → List Char
  | [] => []
  | [t] => t
  | t :: ts => t ++ ' ' :: joinTokens ts

/-- Decimal digit value. -/
def digitVal (c : Char) : Option Nat :=
  if '0' ≤ c ∧ c ≤ '9' then some (c.toNat - '0'.toNat) else none

/-- Parse a non-empty all-digit string, accumulating. -/
def digitsToNatAux : List Char → Nat → Option Nat
  | [], acc => some acc
  | c :: rest, acc =>
    match digitVal c with
    | none => none
    | some d => digitsToNatAux rest (acc * 10 + d)

/-- Python `int(token)` on a whitespace-free token: optional sign followed
by at least one digit; anything else raises (modelled as `none`). -/
def pyInt : List Char → Option Int
  | [] => none
  | '-' :: rest =>
    if rest.isEmpty then none
    else (digitsToNatAux rest 0).map (fun n => -(n : Int))
  | '+' :: rest =>
    if rest.isEmpty then none
    else (digitsToNatAux rest 0).map (fun n => (n : Int))
  | s => (digitsToNatAux s 0).map (fun n => (n : Int))

/-- Python `os.path.join(a, b)` for the cases arising in the source. -/
def pathJoin (a b : String) : String :=
  if b.startsWith "/" then b
  else if a = "" then b
  else if a.endsWith "/" then a ++ b
  else a ++ "/" ++ b

/-- Lookup in an environment mapping (first match, like a `dict`). -/
def envGet (e : List (String × String)) (k : String) : Option String :=
  (e.find? (fun p => p.1 = k)).map (fun p => p.2)

/-- Apply `f` to the value stored under key `k`, leaving every other entry
unchanged; identity when `k` is absent (this models
`if k in env: env[k] = f(env[k])`). -/
def envMapKey (k : String) (f : String → String) (e : List (String × String)) :
    List (String × String) :=
  e.map (fun p => if p.1 = k then (p.1, f p.2) else p)

/- ## Data model -/

/-- Package descriptor: only the name is read by this module. -/
structure Package where
  name : String
deriving DecidableEq

/-- Build context, with the per-package path resolvers already applied to
the package under plan (the source calls `context.package_build_space(package)`
and friends exactly once each). -/
structure Context where
  source_space_abs : String
  package_build_space : String
  package_metadata_path : String
  package_dest_path : String
  package_final_path : String
  cmake_args : List String
  isolate_install : Bool
deriving DecidableEq

/-- The host functions a `FunctionStage` can bind. -/
inductive StageFn where
  | loadenvFn
  | makedirsFn
  | copyfilesFn
  | renamepathFn
  | fix_shebangsFn
  | generate_setup_fileFn
  | generate_env_fileFn
  | fix_python3_install_spaceFn
deriving DecidableEq

/-- A keyword-argument value bound into a `FunctionStage`. -/
inductive Val where
  | vStr : String → Val
  | vStrList : List String → Val
  | vEnv : List (String × String) → Val
  | vPkg : Package → Val
  | vCtx : Context → Val
deriving DecidableEq

/-- Stage descriptor: `CommandStage(name, argv, cwd=…, locked_resource=…)`
or `FunctionStage(name, fn, **kwargs, locked_resource=…)`. -/
inductive Stage where
  | command (name : String) (argv : List String) (cwd : String)
      (locked_resource : Option String)
  | function (name : String) (fn : StageFn) (kwargs : List (String × Val))
      (locked_resource : Option String)
deriving DecidableEq

/-- The name of a stage. -/
def stageName : Stage → String
  | .command n _ _ _ => n
  | .function n _ _ _ => n

/-- The declared locked resource of a stage. -/
def stageLock : Stage → Option String
  | .command _ _ _ l => l
  | .function _ _ _ l => l

/-- The keyword arguments of a function stage (empty for a command stage). -/
def stageKwargs : Stage → List (String × Val)
  | .command _ _ _ _ => []
  | .function _ _ kw _ => kw

/-- A job: id, dependency set, environment, ordered stage sequence. -/
structure Job where
  jid : String
  deps : List String
  env : List (String × String)
  stages : List Stage
deriving DecidableEq

/-- Why planning can abort: `open(setup.py)` raising, or the version probe
failing to spawn / producing unparsable output. -/
inductive PlanError where
  | probeFailure
  | setupPyMissing
deriving DecidableEq

/- ## Embedded source functions -/

/-- `re.match(pat + b"(\\s|$)", contents)` for a literal byte pattern `pat`:
the pattern must occur at the very start of `contents` and be followed by a
whitespace byte or the end of the input (a `$` just before a final newline
is subsumed by the whitespace branch since newline is whitespace). -/
def shebangMatch (pat contents : List Char) : Bool :=
  pat.isPrefixOf contents &&
    match contents.drop pat.length with
    | [] => true
    | c :: _ => wsChar c

/-- The per-file byte transformation performed by `fix_shebangs` on each
`.py` file: rewrite a `#!/usr/bin/python` directive (followed by whitespace
or end of file) or a `#!/usr/bin/env python` directive (same condition)
into `#!<python_exec>`; leave everything else alone. -/
def fix_shebang_contents (python_exec : String) (contents : List Char) : List Char :=
  let new_shebang := ("#!" ++ python_exec).data
  if shebangMatch "#!/usr/bin/python".data contents then
    replaceFirst "#!/usr/bin/python".data new_shebang contents
  else if shebangMatch "#!/usr/bin/env python".data contents then
    replaceFirst "#!/usr/bin/env python".data new_shebang contents
  else contents

/-- `fix_python3_install_space(install_space, old_python, new_python)`:
`setup_sh` is the content of `install_space/setup.sh` when that file
exists (`none` otherwise); the result is `some written` when the code
writes the file (`if contents:` — truthiness, i.e. non-emptiness, of the
replaced bytes) and `none` when it performs no write. -/
def fix_python3_install_space (old_python new_python : String)
    (setup_sh : Option String) : Option String :=
  match setup_sh with
  | none => none
  | some contents =>
    let contents2 :=
      pyReplaceS contents ("/lib/python" ++ old_python) ("/lib/python" ++ new_python)
    if contents2.data = [] then none else some contents2

/-- `determine_python_exec(cmake_args)`: the new value of the module-level
`PYTHON_EXEC` (passed in as `python_exec`) after scanning the cmake args
for one containing `PYTHON_EXECUTABLE` and stripping the
`-DPYTHON_EXECUTABLE=` substring from the first such arg. -/
def determine_python_exec (cmake_args : List String) (python_exec : String) : String :=
  match cmake_args.filter (fun x => pyIn "PYTHON_EXECUTABLE" x) with
  | [] => python_exec
  | directive :: _ => pyReplaceS directive "-DPYTHON_EXECUTABLE=" ""

/-- `determine_python_version()`: `probe_output` is the raw stdout of the
version-probe subprocess (`none` when the spawn itself fails); the output
is split on whitespace and the first two tokens parsed with `int`. -/
def determine_python_version (probe_output : Option String) : Option (Int × Int) :=
  match probe_output with
  | none => none
  | some out =>
    match pySplitL out.data with
    | t0 :: t1 :: _ =>
      match pyInt t0, pyInt t1 with
      | some major, some minor => some (major, minor)
      | _, _ => none
    | _ => none

/-- The inner `strip_ccache` of `create_python_build_job`: tokenize on
whitespace, drop tokens containing `ccache`, rejoin with single spaces. -/
def strip_ccache (cc_str : String) : String :=
  String.mk (joinTokens
    ((pySplitL cc_str.data).filter (fun part => !containsSub "ccache".data part)))

/-- `job_env = dict(os.environ)` followed by the two
`if k in job_env: job_env[k] = strip_ccache(job_env[k])` statements
for `CC` then `CXX`. -/
def build_job_env (environ : List (String × String)) : List (String × String) :=
  envMapKey "CXX" strip_ccache (envMapKey "CC" strip_ccache environ)

/-- `re.search('(from|import) setuptools', s)` as a boolean. -/
def svem_check (s : String) : Bool :=
  pyIn "from setuptools" s || pyIn "import setuptools" s

/-- `create_python_build_job(context, package, package_path, dependencies,
force_cmake, pre_clean)`.  External effects are explicit inputs:
`environ` is the `os.environ` snapshot, `ambient_python_exec` the
module-level `PYTHON_EXEC` before the call, `rsync_exec` the resolved
`rsync` path, `setup_py` the content of `pkg_dir/setup.py` (`none` when
`open` raises), `probe_output` the version-probe stdout (`none` when the
spawn raises), and `python_install_dir` the result of
`get_python_install_dir()`. -/
def create_python_build_job (context : Context)
    (environ : List (String × String)) (package : Package)
    (package_path : String) (dependencies : List String)
    (force_cmake pre_clean : Bool)
    (ambient_python_exec rsync_exec : String)
    (setup_py : Option String) (probe_output : Option String)
    (python_install_dir : String) : Except PlanError Job :=
  let pkg_dir := pathJoin context.source_space_abs package_path
  let build_space := context.package_build_space
  let metadata_path := context.package_metadata_path
  let job_env := build_job_env environ
  let dest_path := context.package_dest_path
  let _final_path := context.package_final_path
  let python_exec := determine_python_exec context.cmake_args ambient_python_exec
  -- determine_python_version() raises before any stage is created
  match determine_python_version probe_output with
  | none => .error .probeFailure
  | some python_version =>
    -- opening setup.py raises before the CommandStage list is returned
    match setup_py with
    | none => .error .setupPyMissing
    | some setup_file_contents =>
      let svem_supported := svem_check setup_file_contents
      let python_install_dir_site := pyReplaceS python_install_dir "dist-packages" "site-packages"
      let python_install_dir2 :=
        if python_version.1 = 3 then
          pyReplaceS python_install_dir
            ("python" ++ toString python_version.1 ++ "." ++ toString python_version.2)
            ("python" ++ toString python_version.1)
        else python_install_dir
      let stages : List Stage :=
        [ .function "loadenv" .loadenvFn
            [("job_env", .vEnv job_env), ("package", .vPkg package),
             ("context", .vCtx context)] (some "installspace"),
          .function "mkdir" .makedirsFn [("path", .vStr metadata_path)] none,
          .function "cache-manifest" .copyfilesFn
            [("source_paths",
               .vStrList [pathJoin (pathJoin context.source_space_abs package_path) "package.xml"]),
             ("dest_path", .vStr (pathJoin metadata_path "package.xml"))] none,
          .command "python"
            ([python_exec, "setup.py",
              "build", "--build-base", build_space,
              "install",
              "--root", build_space,
              "--prefix", "install"] ++
             (if svem_supported then ["--single-version-externally-managed"] else []))
            pkg_dir none ]
        ++ (if pyIn "dist-packages" python_install_dir then
              [ .function "debian-fix" .renamepathFn
                  [("source_path", .vStr (pathJoin (pathJoin build_space "install") python_install_dir_site)),
                   ("dest_path", .vStr (pathJoin (pathJoin build_space "install") python_install_dir2))]
                  none ]
            else [])
        ++ [ .function "mkdir-install" .makedirsFn [("path", .vStr dest_path)] none,
             .command "install"
               [rsync_exec, "-a", pathJoin (pathJoin build_space "install") "", dest_path]
               pkg_dir (some "installspace"),
             .function "fix-shebang" .fix_shebangsFn
               [("pkg_dir", .vStr dest_path), ("python_exec", .vStr python_exec)]
               (if context.isolate_install then none else some "installspace"),
             .function "setupgen" .generate_setup_fileFn
               [("context", .vCtx context), ("install_target", .vStr dest_path)] none,
             .function "envgen" .generate_env_fileFn
               [("context", .vCtx context), ("install_target", .vStr dest_path)] none ]
        ++ (if python_version.1 = 3 then
              [ .function "fix_python3_install_space" .fix_python3_install_spaceFn
                  [("install_space", .vStr dest_path),
                   ("old_python", .vStr (toString python_version.1 ++ "." ++ toString python_version.2)),
                   ("new_python", .vStr (toString python_version.1))]
                  (some "installspace") ]
            else [])
      .ok { jid := package.name, deps := dependencies, env := job_env, stages := stages }

/-- `create_python_clean_job`: empty environment, empty stage list. -/
def create_python_clean_job (context : Context) (package : Package)
    (package_path : String) (dependencies : List String)
    (dry_run clean_build clean_devel clean_install : Bool) : Job :=
  let _build_space := context.package_build_space
  let _metadata_path := context.package_metadata_path
  let job_env : List (String × String) := []
  let stages : List Stage := []
  { jid := package.name, deps := dependencies, env := job_env, stages := stages }

/- ## Shared concrete inputs for witnesses -/

/-- A concrete build context used by witness instantiations. -/
def sampleContext : Context :=
  { source_space_abs := "/ws/src"
    package_build_space := "/ws/build/pkg"
    package_metadata_path := "/ws/meta/pkg"
    package_dest_path := "/ws/install/pkg"
    package_final_path := "/ws/final/pkg"
    cmake_args := []
    isolate_install := false }

/-- A concrete package used by witness instantiations. -/
def samplePackage : Package := { name := "pkg" }

/- ## Claim theorems -/

/-- C10: `create_python_clean_job` returns a Job with the package name as
id, the given dependency set, an empty environment mapping, and an empty
stage list, regardless of the `dry_run` / `clean_build` / `clean_devel` /
`clean_install` flags. -/
theorem clean_job_is_empty (context : Context) (package : Package)
    (package_path : String) (dependencies : List String)
    (dry_run clean_build clean_devel clean_install : Bool) :
    create_python_clean_job context package package_path dependencies
      dry_run clean_build clean_devel clean_install =
      { jid := package.name, deps := dependencies, env := [], stages := [] } := rfl

/-- C8: planning aborts with an error (returning no Job) exactly when the
setup.py read fails or the interpreter version probe fails to spawn or
produces unparsable output; when the probe parses and setup.py is
readable, planning returns a Job. -/
theorem build_job_error_handling (context : Context)
    (environ : List (String × String)) (package : Package)
    (package_path : String) (dependencies : List String)
    (force_cmake pre_clean : Bool) (ambient_python_exec rsync_exec : String)
    (setup_py : Option String) (probe_output : Option String)
    (python_install_dir : String) :
    (determine_python_version probe_output = none →
      create_python_build_job context environ package package_path dependencies
        force_cmake pre_clean ambient_python_exec rsync_exec setup_py
        probe_output python_install_dir = .error .probeFailure) ∧
    (∀ pv, determine_python_version probe_output = some pv → setup_py = none →
      create_python_build_job context environ package package_path dependencies
        force_cmake pre_clean ambient_python_exec rsync_exec setup_py
        probe_output python_install_dir = .error .setupPyMissing) ∧
    (∀ pv sp, determine_python_version probe_output = some pv → setup_py = some sp →
      ∃ j, create_python_build_job context environ package package_path dependencies
        force_cmake pre_clean ambient_python_exec rsync_exec setup_py
        probe_output python_install_dir = .ok j) := by
  refine ⟨fun h => ?_, fun pv h hs => ?_, fun pv sp h hs => ?_⟩
  · simp [create_python_build_job, h]
  · simp [create_python_build_job, h, hs]
  · cases hc : create_python_build_job context environ package package_path dependencies
      force_cmake pre_clean ambient_python_exec rsync_exec setup_py
      probe_output python_install_dir with
    | error e => exact absurd hc (by simp [create_python_build_job, h, hs])
    | ok j => exact ⟨j, rfl⟩

/-- Witness for C8: at concrete inputs, a failed probe and a missing
setup.py each abort planning, while good inputs produce a Job. -/
theorem build_job_error_handling_witness :
    create_python_build_job sampleContext [] samplePackage "pkg" [] false false
      "/usr/bin/python3" "/usr/bin/rsync" (some "import setuptools") none
      "lib/python3.8/dist-packages" = .error .probeFailure ∧
    create_python_build_job sampleContext [] samplePackage "pkg" [] false false
      "/usr/bin/python3" "/usr/bin/rsync" none (some "3 8")
      "lib/python3.8/dist-packages" = .error .setupPyMissing ∧
    ∃ j, create_python_build_job sampleContext [] samplePackage "pkg" [] false false
      "/usr/bin/python3" "/usr/bin/rsync" (some "import setuptools") (some "3 8")
      "lib/python3.8/dist-packages" = .ok j :=
  ⟨(build_job_error_handling sampleContext [] samplePackage "pkg" [] false false
      "/usr/bin/python3" "/usr/bin/rsync" (some "import setuptools") none
      "lib/python3.8/dist-packages").1 rfl,
   (build_job_error_handling sampleContext [] samplePackage "pkg" [] false false
      "/usr/bin/python3" "/usr/bin/rsync" none (some "3 8")
      "lib/python3.8/dist-packages").2.1 (3, 8) rfl rfl,
   (build_job_error_handling sampleContext [] samplePackage "pkg" [] false false
      "/usr/bin/python3" "/usr/bin/rsync" (some "import setuptools") (some "3 8")
      "lib/python3.8/dist-packages").2.2 (3, 8) "import setuptools" rfl rfl⟩

/-- C1: on well-formed inputs the returned Job has exactly the stage
sequence loadenv, mkdir, cache-manifest, python, then debian-fix exactly
when the platform install dir contains `dist-packages`, then
mkdir-install, install, fix-shebang, setupgen, envgen, and finally
fix_python3_install_space exactly when the probed major version is 3;
and it carries the package name as id, the given dependency set, and the
built environment. -/
theorem build_job_stage_sequence
    (context : Context) (environ : List (String × String)) (package : Package)
    (package_path : String) (dependencies : List String)
    (force_cmake pre_clean : Bool) (ambient_python_exec rsync_exec : String)
    (setup_py probe_output : Option String) (python_install_dir : String)
    (pv : Int × Int) (sp : String)
    (hprobe : determine_python_version probe_output = some pv)
    (hsetup : setup_py = some sp) :
    ∃ j, create_python_build_job context environ package package_path dependencies
        force_cmake pre_clean ambient_python_exec rsync_exec setup_py
        probe_output python_install_dir = .ok j ∧
      j.jid = package.name ∧ j.deps = dependencies ∧ j.env = build_job_env environ ∧
      j.stages.map stageName =
        ["loadenv", "mkdir", "cache-manifest", "python"] ++
        (if pyIn "dist-packages" python_install_dir then ["debian-fix"] else []) ++
        ["mkdir-install", "install", "fix-shebang", "setupgen", "envgen"] ++
        (if pv.1 = 3 then ["fix_python3_install_space"] else []) := by
  simp only [create_python_build_job, hprobe, hsetup]
  exact ⟨_, rfl, rfl, rfl, rfl, by split_ifs <;> simp [stageName]⟩

/-- Witness for C1: concrete instantiation with a Debian-style install
directory and a python 3.8 probe. -/
theorem build_job_stage_sequence_witness :
    ∃ j, create_python_build_job sampleContext [("CC", "ccache gcc")] samplePackage
        "pkg" ["dep1"] false false "/usr/bin/python3" "/usr/bin/rsync"
        (some "import setuptools") (some "3 8") "lib/python3.8/dist-packages" = .ok j ∧
      j.jid = samplePackage.name ∧ j.deps = ["dep1"] ∧
      j.env = build_job_env [("CC", "ccache gcc")] ∧
      j.stages.map stageName =
        ["loadenv", "mkdir", "cache-manifest", "python"] ++
        (if pyIn "dist-packages" "lib/python3.8/dist-packages" then ["debian-fix"] else []) ++
        ["mkdir-install", "install", "fix-shebang", "setupgen", "envgen"] ++
        (if (3 : Int) = 3 then ["fix_python3_install_space"] else []) :=
  build_job_stage_sequence sampleContext [("CC", "ccache gcc")] samplePackage
    "pkg" ["dep1"] false false "/usr/bin/python3" "/usr/bin/rsync"
    (some "import setuptools") (some "3 8") "lib/python3.8/dist-packages"
    (3, 8) "import setuptools" rfl rfl

/-- C7: the declared locked resources, stage by stage: loadenv, install
and (when present) fix_python3_install_space hold `installspace`;
fix-shebang holds `installspace` exactly when the context's
isolate-install flag is not set; every other stage declares no lock. -/
theorem build_job_locked_resources
    (context : Context) (environ : List (String × String)) (package : Package)
    (package_path : String) (dependencies : List String)
    (force_cmake pre_clean : Bool) (ambient_python_exec rsync_exec : String)
    (setup_py probe_output : Option String) (python_install_dir : String)
    (pv : Int × Int) (sp : String)
    (hprobe : determine_python_version probe_output = some pv)
    (hsetup : setup_py = some sp) :
    ∃ j, create_python_build_job context environ package package_path dependencies
        force_cmake pre_clean ambient_python_exec rsync_exec setup_py
        probe_output python_install_dir = .ok j ∧
      j.stages.map (fun s => (stageName s, stageLock s)) =
        [("loadenv", some "installspace"), ("mkdir", none),
         ("cache-manifest", none), ("python", none)] ++
        (if pyIn "dist-packages" python_install_dir then [("debian-fix", none)] else []) ++
        [("mkdir-install", none), ("install", some "installspace"),
         ("fix-shebang", if context.isolate_install then none else some "installspace"),
         ("setupgen", none), ("envgen", none)] ++
        (if pv.1 = 3 then [("fix_python3_install_space", some "installspace")] else []) := by
  simp only [create_python_build_job, hprobe, hsetup]
  exact ⟨_, rfl, by split_ifs <;> simp [stageName, stageLock]⟩

/-- Witness for C7: concrete instantiation with isolate-install unset. -/
theorem build_job_locked_resources_witness :
    ∃ j, create_python_build_job sampleContext [] samplePackage
        "pkg" [] false false "/usr/bin/python3" "/usr/bin/rsync"
        (some "from setuptools import setup") (some "3 8")
        "lib/python3.8/dist-packages" = .ok j ∧
      j.stages.map (fun s => (stageName s, stageLock s)) =
        [("loadenv", some "installspace"), ("mkdir", none),
         ("cache-manifest", none), ("python", none)] ++
        (if pyIn "dist-packages" "lib/python3.8/dist-packages" then [("debian-fix", none)] else []) ++
        [("mkdir-install", none), ("install", some "installspace"),
         ("fix-shebang", if sampleContext.isolate_install then none else some "installspace"),
         ("setupgen", none), ("envgen", none)] ++
        (if (3 : Int) = 3 then [("fix_python3_install_space", some "installspace")] else []) :=
  build_job_locked_resources sampleContext [] samplePackage
    "pkg" [] false false "/usr/bin/python3" "/usr/bin/rsync"
    (some "from setuptools import setup") (some "3 8")
    "lib/python3.8/dist-packages" (3, 8) "from setuptools import setup" rfl rfl

/-- C2: the emitted `python` command stage's argument list carries
`--single-version-externally-managed` exactly when the package's setup.py
text matches `(from|import) setuptools`, with all other arguments
unchanged. -/
theorem build_job_svem_flag
    (context : Context) (environ : List (String × String)) (package : Package)
    (package_path : String) (dependencies : List String)
    (force_cmake pre_clean : Bool) (ambient_python_exec rsync_exec : String)
    (setup_py probe_output : Option String) (python_install_dir : String)
    (pv : Int × Int) (sp : String)
    (hprobe : determine_python_version probe_output = some pv)
    (hsetup : setup_py = some sp)
    (hne1 : determine_python_exec context.cmake_args ambient_python_exec ≠
      "--single-version-externally-managed")
    (hne2 : context.package_build_space ≠ "--single-version-externally-managed") :
    ∃ j, create_python_build_job context environ package package_path dependencies
        force_cmake pre_clean ambient_python_exec rsync_exec setup_py
        probe_output python_install_dir = .ok j ∧
      j.stages[3]? = some (.command "python"
        ([determine_python_exec context.cmake_args ambient_python_exec, "setup.py",
          "build", "--build-base", context.package_build_space,
          "install", "--root", context.package_build_space, "--prefix", "install"] ++
         (if svem_check sp then ["--single-version-externally-managed"] else []))
        (pathJoin context.source_space_abs package_path) none) ∧
      ("--single-version-externally-managed" ∈
        ([determine_python_exec context.cmake_args ambient_python_exec, "setup.py",
          "build", "--build-base", context.package_build_space,
          "install", "--root", context.package_build_space, "--prefix", "install"] ++
         (if svem_check sp then ["--single-version-externally-managed"] else [])) ↔
        svem_check sp = true) := by
  simp only [create_python_build_job, hprobe, hsetup]
  refine ⟨_, rfl, by simp, ?_⟩
  cases hs : svem_check sp <;>
    simp [hs, List.mem_append, List.mem_cons, Ne.symm hne1, Ne.symm hne2]

/-- Witness for C2: with a non-setuptools setup.py, the flag is absent. -/
theorem build_job_svem_flag_witness :
    ∃ j, create_python_build_job sampleContext [] samplePackage "pkg" [] false false
        "/usr/bin/python3" "/usr/bin/rsync" (some "from distutils.core import setup")
        (some "3 8") "lib/python3.8/dist-packages" = .ok j ∧
      j.stages[3]? = some (.command "python"
        ([determine_python_exec sampleContext.cmake_args "/usr/bin/python3", "setup.py",
          "build", "--build-base", sampleContext.package_build_space,
          "install", "--root", sampleContext.package_build_space, "--prefix", "install"] ++
         (if svem_check "from distutils.core import setup"
          then ["--single-version-externally-managed"] else []))
        (pathJoin sampleContext.source_space_abs "pkg") none) ∧
      ("--single-version-externally-managed" ∈
        ([determine_python_exec sampleContext.cmake_args "/usr/bin/python3", "setup.py",
          "build", "--build-base", sampleContext.package_build_space,
          "install", "--root", sampleContext.package_build_space, "--prefix", "install"] ++
         (if svem_check "from distutils.core import setup"
          then ["--single-version-externally-managed"] else [])) ↔
        svem_check "from distutils.core import setup" = true) :=
  build_job_svem_flag sampleContext [] samplePackage "pkg" [] false false
    "/usr/bin/python3" "/usr/bin/rsync" (some "from distutils.core import setup")
    (some "3 8") "lib/python3.8/dist-packages" (3, 8) "from distutils.core import setup"
    rfl rfl (by decide) (by decide)

/-- C9: the interpreter path is resolved once — from the first cmake arg
mentioning PYTHON_EXECUTABLE with the `-DPYTHON_EXECUTABLE=` text
stripped, otherwise the ambient default — and both the `python` command
stage's executable and the fix-shebang stage's bound `python_exec` use
that same resolved value. -/
theorem build_job_single_interpreter
    (context : Context) (environ : List (String × String)) (package : Package)
    (package_path : String) (dependencies : List String)
    (force_cmake pre_clean : Bool) (ambient_python_exec rsync_exec : String)
    (setup_py probe_output : Option String) (python_install_dir : String)
    (pv : Int × Int) (sp : String)
    (hprobe : determine_python_version probe_output = some pv)
    (hsetup : setup_py = some sp) :
    (context.cmake_args.filter (fun x => pyIn "PYTHON_EXECUTABLE" x) = [] →
      determine_python_exec context.cmake_args ambient_python_exec = ambient_python_exec) ∧
    (∀ d ds, context.cmake_args.filter (fun x => pyIn "PYTHON_EXECUTABLE" x) = d :: ds →
      determine_python_exec context.cmake_args ambient_python_exec =
        pyReplaceS d "-DPYTHON_EXECUTABLE=" "") ∧
    ∃ j, create_python_build_job context environ package package_path dependencies
        force_cmake pre_clean ambient_python_exec rsync_exec setup_py
        probe_output python_install_dir = .ok j ∧
      (∃ argvTail, j.stages[3]? = some (.command "python"
        (determine_python_exec context.cmake_args ambient_python_exec :: argvTail)
        (pathJoin context.source_space_abs package_path) none)) ∧
      (pyIn "dist-packages" python_install_dir = true →
        j.stages[7]? = some (.function "fix-shebang" .fix_shebangsFn
          [("pkg_dir", .vStr context.package_dest_path),
           ("python_exec", .vStr (determine_python_exec context.cmake_args ambient_python_exec))]
          (if context.isolate_install then none else some "installspace"))) ∧
      (pyIn "dist-packages" python_install_dir = false →
        j.stages[6]? = some (.function "fix-shebang" .fix_shebangsFn
          [("pkg_dir", .vStr context.package_dest_path),
           ("python_exec", .vStr (determine_python_exec context.cmake_args ambient_python_exec))]
          (if context.isolate_install then none else some "installspace"))) := by
  refine ⟨fun h => by simp [determine_python_exec, h],
          fun d ds h => by simp [determine_python_exec, h], ?_⟩
  simp only [create_python_build_job, hprobe, hsetup]
  refine ⟨_, rfl,
    ⟨"setup.py" :: "build" :: "--build-base" :: context.package_build_space ::
      "install" :: "--root" :: context.package_build_space :: "--prefix" :: "install" ::
      (if svem_check sp then ["--single-version-externally-managed"] else []),
     by simp⟩, fun hd => ?_, fun hd => ?_⟩ <;> simp [hd]

/-- Witness for C9: concrete instantiation with an explicit
`-DPYTHON_EXECUTABLE=` override and a Debian-style install directory. -/
theorem build_job_single_interpreter_witness :
    (["-DPYTHON_EXECUTABLE=/opt/py3"].filter (fun x => pyIn "PYTHON_EXECUTABLE" x) = [] →
      determine_python_exec ["-DPYTHON_EXECUTABLE=/opt/py3"] "/usr/bin/python3" =
        "/usr/bin/python3") ∧
    (∀ d ds, ["-DPYTHON_EXECUTABLE=/opt/py3"].filter (fun x => pyIn "PYTHON_EXECUTABLE" x) = d :: ds →
      determine_python_exec ["-DPYTHON_EXECUTABLE=/opt/py3"] "/usr/bin/python3" =
        pyReplaceS d "-DPYTHON_EXECUTABLE=" "") ∧
    ∃ j, create_python_build_job
        { sampleContext with cmake_args := ["-DPYTHON_EXECUTABLE=/opt/py3"] }
        [] samplePackage "pkg" [] false false "/usr/bin/python3" "/usr/bin/rsync"
        (some "import setuptools") (some "3 8") "lib/python3.8/dist-packages" = .ok j ∧
      (∃ argvTail, j.stages[3]? = some (.command "python"
        (determine_python_exec ["-DPYTHON_EXECUTABLE=/opt/py3"] "/usr/bin/python3" :: argvTail)
        (pathJoin "/ws/src" "pkg") none)) ∧
      (pyIn "dist-packages" "lib/python3.8/dist-packages" = true →
        j.stages[7]? = some (.function "fix-shebang" .fix_shebangsFn
          [("pkg_dir", .vStr "/ws/install/pkg"),
           ("python_exec", .vStr (determine_python_exec ["-DPYTHON_EXECUTABLE=/opt/py3"] "/usr/bin/python3"))]
          (if false then none else some "installspace"))) ∧
      (pyIn "dist-packages" "lib/python3.8/dist-packages" = false →
        j.stages[6]? = some (.function "fix-shebang" .fix_shebangsFn
          [("pkg_dir", .vStr "/ws/install/pkg"),
           ("python_exec", .vStr (determine_python_exec ["-DPYTHON_EXECUTABLE=/opt/py3"] "/usr/bin/python3"))]
          (if false then none else some "installspace"))) :=
  build_job_single_interpreter
    { sampleContext with cmake_args := ["-DPYTHON_EXECUTABLE=/opt/py3"] }
    [] samplePackage "pkg" [] false false "/usr/bin/python3" "/usr/bin/rsync"
    (some "import setuptools") (some "3 8") "lib/python3.8/dist-packages"
    (3, 8) "import setuptools" rfl rfl

/-- C3: when the probe reports major 3 the stage list carries exactly one
fix_python3_install_space stage and the debian-fix rename destination has
its `pythonMAJOR.MINOR` segment collapsed to `pythonMAJOR`; when the probe
reports major 2 there is no fix_python3_install_space stage and the
debian-fix destination keeps the install directory unchanged. -/
theorem build_job_python3_handling
    (context : Context) (environ : List (String × String)) (package : Package)
    (package_path : String) (dependencies : List String)
    (force_cmake pre_clean : Bool) (ambient_python_exec rsync_exec : String)
    (setup_py probe_output : Option String) (python_install_dir : String)
    (pv : Int × Int) (sp : String)
    (hprobe : determine_python_version probe_output = some pv)
    (hsetup : setup_py = some sp) :
    ∃ j, create_python_build_job context environ package package_path dependencies
        force_cmake pre_clean ambient_python_exec rsync_exec setup_py
        probe_output python_install_dir = .ok j ∧
      (pv.1 = 3 →
        (j.stages.map stageName).count "fix_python3_install_space" = 1 ∧
        (pyIn "dist-packages" python_install_dir = true →
          j.stages[4]? = some (.function "debian-fix" .renamepathFn
            [("source_path", .vStr (pathJoin (pathJoin context.package_build_space "install")
                (pyReplaceS python_install_dir "dist-packages" "site-packages"))),
             ("dest_path", .vStr (pathJoin (pathJoin context.package_build_space "install")
                (pyReplaceS python_install_dir
                  ("python" ++ toString pv.1 ++ "." ++ toString pv.2)
                  ("python" ++ toString pv.1))))] none))) ∧
      (pv.1 = 2 →
        (j.stages.map stageName).count "fix_python3_install_space" = 0 ∧
        (pyIn "dist-packages" python_install_dir = true →
          j.stages[4]? = some (.function "debian-fix" .renamepathFn
            [("source_path", .vStr (pathJoin (pathJoin context.package_build_space "install")
                (pyReplaceS python_install_dir "dist-packages" "site-packages"))),
             ("dest_path", .vStr (pathJoin (pathJoin context.package_build_space "install")
                python_install_dir))] none))) := by
  simp only [create_python_build_job, hprobe, hsetup]
  refine ⟨_, rfl, fun hm => ⟨?_, fun hd => ?_⟩, fun hm => ⟨?_, fun hd => ?_⟩⟩
  · cases hd : pyIn "dist-packages" python_install_dir <;>
      simp [hm, hd, stageName]
  · simp [hm, hd]
  · cases hd : pyIn "dist-packages" python_install_dir <;>
      simp [hm, hd, stageName]
  · simp [hm, hd]

/-- Witness for C3: python 3.5 probe with a Debian-style install dir. -/
theorem build_job_python3_handling_witness :
    ∃ j, create_python_build_job sampleContext [] samplePackage "pkg" [] false false
        "/usr/bin/python3" "/usr/bin/rsync" (some "import setuptools")
        (some "3 5") "lib/python3.5/dist-packages" = .ok j ∧
      ((3 : Int) = 3 →
        (j.stages.map stageName).count "fix_python3_install_space" = 1 ∧
        (pyIn "dist-packages" "lib/python3.5/dist-packages" = true →
          j.stages[4]? = some (.function "debian-fix" .renamepathFn
            [("source_path", .vStr (pathJoin (pathJoin sampleContext.package_build_space "install")
                (pyReplaceS "lib/python3.5/dist-packages" "dist-packages" "site-packages"))),
             ("dest_path", .vStr (pathJoin (pathJoin sampleContext.package_build_space "install")
                (pyReplaceS "lib/python3.5/dist-packages"
                  ("python" ++ toString (3 : Int) ++ "." ++ toString (5 : Int))
                  ("python" ++ toString (3 : Int)))))] none))) ∧
      ((3 : Int) = 2 →
        (j.stages.map stageName).count "fix_python3_install_space" = 0 ∧
        (pyIn "dist-packages" "lib/python3.5/dist-packages" = true →
          j.stages[4]? = some (.function "debian-fix" .renamepathFn
            [("source_path", .vStr (pathJoin (pathJoin sampleContext.package_build_space "install")
                (pyReplaceS "lib/python3.5/dist-packages" "dist-packages" "site-packages"))),
             ("dest_path", .vStr (pathJoin (pathJoin sampleContext.package_build_space "install")
                "lib/python3.5/dist-packages"))] none))) :=
  build_job_python3_handling sampleContext [] samplePackage "pkg" [] false false
    "/usr/bin/python3" "/usr/bin/rsync" (some "import setuptools")
    (some "3 5") "lib/python3.5/dist-packages" (3, 5) "import setuptools" rfl rfl

/- ## Lemmas about tokenization (for strip_ccache) -/

/-- Feeding a run of non-whitespace characters into the splitter extends
the current token. -/
theorem pySplitAux_append_nonws (t : List Char) :
    ∀ (rest cur : List Char), (∀ c ∈ t, wsChar c = false) →
      pySplitAux (t ++ rest) cur = pySplitAux rest (cur ++ t) := by
  induction t with
  | nil => intro rest cur _; simp
  | cons c t ih =>
    intro rest cur h
    have hc : wsChar c = false := h c (List.mem_cons_self c t)
    show pySplitAux (c :: (t ++ rest)) cur = pySplitAux rest (cur ++ c :: t)
    rw [pySplitAux, hc]
    simp only [Bool.false_eq_true, if_false]
    rw [ih rest (cur ++ [c]) (fun x hx => h x (List.mem_cons_of_mem c hx))]
    simp

/-- Every token produced by the splitter is non-empty and whitespace-free. -/
theorem pySplitAux_tokens (s : List Char) :
    ∀ (cur : List Char), (∀ c ∈ cur, wsChar c = false) →
      ∀ t ∈ pySplitAux s cur, t ≠ [] ∧ ∀ c ∈ t, wsChar c = false := by
  induction s with
  | nil =>
    intro cur hcur t ht
    simp only [pySplitAux] at ht
    cases hc : cur.isEmpty
    · rw [hc] at ht
      simp at ht
      subst ht
      refine ⟨?_, hcur⟩
      intro hnil
      rw [hnil] at hc
      simp at hc
    · rw [hc] at ht
      simp at ht
  | cons c s ih =>
    intro cur hcur t ht
    simp only [pySplitAux] at ht
    cases hw : wsChar c
    · rw [hw] at ht
      simp only [Bool.false_eq_true, if_false] at ht
      refine ih (cur ++ [c]) ?_ t ht
      intro x hx
      rcases List.mem_append.mp hx with h1 | h2
      · exact hcur x h1
      · simp at h2; subst h2; exact hw
    · rw [hw] at ht
      simp only [if_true] at ht
      cases hc : cur.isEmpty
      · rw [hc] at ht
        simp only [Bool.false_eq_true, if_false] at ht
        rcases List.mem_cons.mp ht with h1 | h2
        · subst h1
          refine ⟨?_, hcur⟩
          intro hnil
          rw [hnil] at hc
          simp at hc
        · exact ih [] (by simp) t h2
      · rw [hc] at ht
        simp only [if_true] at ht
        exact ih [] (by simp) t ht

/-- Splitting the single-space join of non-empty whitespace-free tokens
recovers the tokens. -/
theorem pySplitAux_join (ts : List (List Char))
    (h : ∀ t ∈ ts, t ≠ [] ∧ ∀ c ∈ t, wsChar c = false) :
    pySplitAux (joinTokens ts) [] = ts := by
  induction ts with
  | nil => rfl
  | cons t ts ih =>
    cases ts with
    | nil =>
      have ht := h t (by simp)
      cases t with
      | nil => exact absurd rfl ht.1
      | cons c t' =>
        have step : pySplitAux ((c :: t') ++ []) [] = pySplitAux [] ([] ++ (c :: t')) :=
          pySplitAux_append_nonws (c :: t') [] [] ht.2
        rw [List.append_nil, List.nil_append] at step
        show pySplitAux (c :: t') [] = [c :: t']
        rw [step]
        rfl
    | cons t2 ts2 =>
      have ht := h t (by simp)
      have hrest : ∀ u ∈ t2 :: ts2, u ≠ [] ∧ ∀ c ∈ u, wsChar c = false :=
        fun u hu => h u (List.mem_cons_of_mem t hu)
      cases t with
      | nil => exact absurd rfl ht.1
      | cons c t' =>
        have step := pySplitAux_append_nonws (c :: t')
          (' ' :: joinTokens (t2 :: ts2)) [] ht.2
        rw [List.nil_append] at step
        show pySplitAux ((c :: t') ++ ' ' :: joinTokens (t2 :: ts2)) [] =
          (c :: t') :: t2 :: ts2
        rw [step]
        show (c :: t') :: pySplitAux (joinTokens (t2 :: ts2)) [] = (c :: t') :: t2 :: ts2
        rw [ih hrest]

/-- Splitting the output of `strip_ccache` yields exactly the surviving
tokens of the input, in order. -/
theorem pySplitL_strip_ccache (s : String) :
    pySplitL (strip_ccache s).data =
      (pySplitL s.data).filter (fun t => !containsSub "ccache".data t) := by
  show pySplitAux (joinTokens ((pySplitL s.data).filter
    (fun t => !containsSub "ccache".data t))) [] = _
  apply pySplitAux_join
  intro t ht
  exact pySplitAux_tokens s.data [] (by simp) t (List.mem_of_mem_filter ht)

/-- `strip_ccache` is idempotent. -/
theorem strip_ccache_idem (s : String) :
    strip_ccache (strip_ccache s) = strip_ccache s := by
  have h2 : ((pySplitL s.data).filter (fun t => !containsSub "ccache".data t)).filter
      (fun t => !containsSub "ccache".data t) =
      (pySplitL s.data).filter (fun t => !containsSub "ccache".data t) :=
    List.filter_eq_self.mpr (fun a ha => (List.mem_filter.mp ha).2)
  calc strip_ccache (strip_ccache s)
      = String.mk (joinTokens ((pySplitL (strip_ccache s).data).filter
          (fun t => !containsSub "ccache".data t))) := rfl
    _ = String.mk (joinTokens (((pySplitL s.data).filter
          (fun t => !containsSub "ccache".data t)).filter
          (fun t => !containsSub "ccache".data t))) := by
        rw [pySplitL_strip_ccache]
    _ = strip_ccache s := by rw [h2]; rfl

/-- Looking up the mapped key returns the transformed value. -/
theorem envGet_envMapKey_same (e : List (String × String)) (k : String)
    (f : String → String) :
    envGet (envMapKey k f e) k = (envGet e k).map f := by
  induction e with
  | nil => rfl
  | cons p e ih =>
    by_cases hp : p.1 = k
    · simp [envGet, envMapKey, List.find?_cons, hp]
    · simp only [envGet, envMapKey, List.map_cons] at *
      rw [if_neg hp, List.find?_cons, List.find?_cons]
      simp only [hp, decide_False]
      exact ih

/-- Looking up any other key is unaffected by `envMapKey`. -/
theorem envGet_envMapKey_other (e : List (String × String)) (k k' : String)
    (f : String → String) (hk : k' ≠ k) :
    envGet (envMapKey k f e) k' = envGet e k' := by
  induction e with
  | nil => rfl
  | cons p e ih =>
    by_cases hp : p.1 = k
    · have hpk : ¬ p.1 = k' := by rw [hp]; exact fun h => hk h.symm
      simp only [envGet, envMapKey, List.map_cons] at *
      rw [if_pos hp, List.find?_cons, List.find?_cons]
      simp only [hpk, decide_False]
      exact ih
    · simp only [envGet, envMapKey, List.map_cons] at *
      rw [if_neg hp, List.find?_cons, List.find?_cons]
      by_cases hq : p.1 = k'
      · simp [hq]
      · simp only [hq, decide_False]
        exact ih

/-- C6: `strip_ccache` behaves as whitespace tokenization, dropping every
token containing `ccache` and rejoining with single spaces — concrete
cases, idempotence, order/token preservation — and the job environment is
the ambient one with this transformation applied to existing `CC` and
`CXX` entries and every other entry unchanged. -/
theorem strip_ccache_spec :
    strip_ccache "ccache gcc -O2" = "gcc -O2" ∧
    strip_ccache "gcc -O2" = "gcc -O2" ∧
    (∀ s : String, pySplitL (strip_ccache s).data =
      (pySplitL s.data).filter (fun t => !containsSub "ccache".data t)) ∧
    (∀ s : String, strip_ccache (strip_ccache s) = strip_ccache s) ∧
    (∀ (environ : List (String × String)) (k : String), k ≠ "CC" → k ≠ "CXX" →
      envGet (build_job_env environ) k = envGet environ k) ∧
    (∀ environ : List (String × String),
      envGet (build_job_env environ) "CC" = (envGet environ "CC").map strip_ccache) ∧
    (∀ environ : List (String × String),
      envGet (build_job_env environ) "CXX" = (envGet environ "CXX").map strip_ccache) := by
  refine ⟨by decide, by decide, pySplitL_strip_ccache, strip_ccache_idem, ?_, ?_, ?_⟩
  · intro environ k h1 h2
    show envGet (envMapKey "CXX" strip_ccache (envMapKey "CC" strip_ccache environ)) k = _
    rw [envGet_envMapKey_other _ _ _ _ h2, envGet_envMapKey_other _ _ _ _ h1]
  · intro environ
    show envGet (envMapKey "CXX" strip_ccache (envMapKey "CC" strip_ccache environ)) "CC" = _
    rw [envGet_envMapKey_other _ _ _ _ (by decide), envGet_envMapKey_same]
  · intro environ
    show envGet (envMapKey "CXX" strip_ccache (envMapKey "CC" strip_ccache environ)) "CXX" = _
    rw [envGet_envMapKey_same, envGet_envMapKey_other _ _ _ _ (by decide)]

/-- Witness for C6: concrete evaluations, including an untouched entry. -/
theorem strip_ccache_spec_witness :
    strip_ccache "ccache gcc -O2" = "gcc -O2" ∧
    envGet (build_job_env [("PATH", "/bin"), ("CC", "ccache gcc")]) "PATH" =
      envGet [("PATH", "/bin"), ("CC", "ccache gcc")] "PATH" ∧
    envGet (build_job_env [("PATH", "/bin"), ("CC", "ccache gcc")]) "CC" =
      (envGet [("PATH", "/bin"), ("CC", "ccache gcc")] "CC").map strip_ccache :=
  ⟨strip_ccache_spec.1,
   strip_ccache_spec.2.2.2.2.1 [("PATH", "/bin"), ("CC", "ccache gcc")] "PATH"
     (by decide) (by decide),
   strip_ccache_spec.2.2.2.2.2.1 [("PATH", "/bin"), ("CC", "ccache gcc")]⟩

/- ## Lemmas about pyReplace (for fix_python3_install_space) -/

/-- String concatenation concatenates the underlying character lists. -/
theorem string_data_append (a b : String) : (a ++ b).data = a.data ++ b.data := by
  cases a with
  | mk la => cases b with
    | mk lb => rfl

/-- When the pattern occurs nowhere in the input, `pyReplace` is the
identity. -/
theorem pyReplace_no_occ (old new : List Char) :
    ∀ s, containsSub old s = false → pyReplace old new s = s := by
  intro s
  induction s with
  | nil => intro _; rfl
  | cons c rest ih =>
    intro h
    simp only [containsSub, Bool.or_eq_false_iff] at h
    show pyReplaceAux old new (c :: rest) 0 = c :: rest
    simp only [pyReplaceAux, h.1, Bool.false_and, Bool.false_eq_true, if_false]
    exact congrArg (c :: ·) (ih h.2)

/-- `pyReplace` with a non-empty replacement never maps a non-empty input
to the empty output. -/
theorem pyReplace_ne_nil (old new s : List Char) (hs : s ≠ []) (hnew : new ≠ []) :
    pyReplace old new s ≠ [] := by
  cases s with
  | nil => exact absurd rfl hs
  | cons c rest =>
    show pyReplaceAux old new (c :: rest) 0 ≠ []
    simp only [pyReplaceAux]
    by_cases hc : (old.isPrefixOf (c :: rest) && !old.isEmpty) = true
    · rw [if_pos hc]
      simp [List.append_eq_nil, hnew]
    · rw [if_neg hc]
      simp

/-- C5 counterexample: for a non-empty setup.sh containing no occurrence
of the old library-path fragment, the code still performs a write (the
`if contents:` guard only checks non-emptiness), contradicting the
claimed "no write when no occurrence exists". -/
theorem fix_python3_install_space_counterexample :
    containsSub "/lib/python3.8".data "export PATH=/bin\n".data = false ∧
    fix_python3_install_space "3.8" "3" (some "export PATH=/bin\n") =
      some "export PATH=/bin\n" ∧
    fix_python3_install_space "3.8" "3" (some "export PATH=/bin\n") ≠ none := by
  decide

/-- C5 (amended): `fix_python3_install_space` replaces every occurrence of
`/lib/python<old>` with `/lib/python<new>` in the setup.sh content; it
performs no write when the file is missing or its content is empty; for
any non-empty content it performs a write — even when no occurrence
exists, in which case the written content equals the original. -/
theorem fix_python3_install_space_spec (old new s : String) :
    fix_python3_install_space old new none = none ∧
    fix_python3_install_space old new (some "") = none ∧
    (s.data ≠ [] →
      fix_python3_install_space old new (some s) =
        some (pyReplaceS s ("/lib/python" ++ old) ("/lib/python" ++ new))) ∧
    (s.data ≠ [] → containsSub ("/lib/python" ++ old).data s.data = false →
      fix_python3_install_space old new (some s) = some s) ∧
    fix_python3_install_space "3.8" "3" (some "a/lib/python3.8/b:/lib/python3.8/c") =
      some "a/lib/python3/b:/lib/python3/c" := by
  refine ⟨rfl, rfl, fun hs => ?_, fun hs hno => ?_, by decide⟩
  · have hnew : ("/lib/python" ++ new).data ≠ [] := by
      intro h
      rw [string_data_append] at h
      exact absurd (List.append_eq_nil.mp h).1 (by decide)
    have hne := pyReplace_ne_nil ("/lib/python" ++ old).data
      ("/lib/python" ++ new).data s.data hs hnew
    exact if_neg hne
  · have heq : pyReplaceS s ("/lib/python" ++ old) ("/lib/python" ++ new) = s := by
      show String.mk (pyReplace ("/lib/python" ++ old).data
        ("/lib/python" ++ new).data s.data) = s
      rw [pyReplace_no_occ _ _ _ hno]
    show (if (pyReplaceS s ("/lib/python" ++ old) ("/lib/python" ++ new)).data = []
      then none
      else some (pyReplaceS s ("/lib/python" ++ old) ("/lib/python" ++ new))) = some s
    rw [heq]
    exact if_neg hs

/-- Witness for the amended C5 at concrete inputs. -/
theorem fix_python3_install_space_spec_witness :
    fix_python3_install_space "3.8" "3" (some "export FOO=1\n") =
      some (pyReplaceS "export FOO=1\n" ("/lib/python" ++ "3.8") ("/lib/python" ++ "3")) ∧
    fix_python3_install_space "3.8" "3" (some "export FOO=1\n") = some "export FOO=1\n" :=
  ⟨(fix_python3_install_space_spec "3.8" "3" "export FOO=1\n").2.2.1 (by decide),
   (fix_python3_install_space_spec "3.8" "3" "export FOO=1\n").2.2.2.1
     (by decide) (by decide)⟩

/- ## Lemmas about shebang rewriting (for fix_shebangs) -/

/-- A list is a `isPrefixOf`-prefix of itself followed by anything. -/
theorem isPrefixOf_append_self (p t : List Char) : p.isPrefixOf (p ++ t) = true := by
  induction p with
  | nil => simp [List.isPrefixOf]
  | cons a p ih => simp [List.isPrefixOf, ih]

/-- Replacing the first occurrence of `p` in `p ++ t` substitutes the
leading copy. -/
theorem replaceFirst_self_append (p n t : List Char) :
    replaceFirst p n (p ++ t) = n ++ t := by
  cases p with
  | nil =>
    cases t with
    | nil => simp [replaceFirst]
    | cons c rest => simp [replaceFirst, List.isPrefixOf]
  | cons a p' =>
    show replaceFirst (a :: p') n (a :: (p' ++ t)) = n ++ t
    simp only [replaceFirst]
    have hp := isPrefixOf_append_self (a :: p') t
    rw [List.cons_append] at hp
    rw [if_pos hp]
    congr 1
    show (a :: (p' ++ t)).drop (p'.length + 1) = t
    rw [List.drop_succ_cons, List.drop_left]

/-- `shebangMatch` of a pattern against itself followed by one more
character reduces to whether that character is whitespace. -/
theorem shebangMatch_append (p : List Char) (c : Char) (rest : List Char) :
    shebangMatch p (p ++ c :: rest) = wsChar c := by
  simp only [shebangMatch, isPrefixOf_append_self, Bool.true_and]
  rw [List.drop_left]

/-- Stripping the common `#!` head from a `shebangMatch`. -/
theorem shebangMatch_cons2 (q M : List Char) :
    shebangMatch ('#' :: '!' :: q) ('#' :: '!' :: M) = shebangMatch q M := by
  simp only [shebangMatch, List.isPrefixOf, beq_self_eq_true, Bool.true_and,
    List.length_cons, List.drop_succ_cons]

/-- C4 counterexample: a file whose content starts with
`#!/usr/bin/python3.9` followed by whitespace is left completely
unchanged by the shebang rewriter — its first line does not become the
target interpreter directive claimed. -/
theorem fix_shebangs_counterexample :
    fix_shebang_contents "/opt/py" "#!/usr/bin/python3.9\nprint(1)\n".data =
      "#!/usr/bin/python3.9\nprint(1)\n".data ∧
    "#!/usr/bin/python3.9\nprint(1)\n".data ≠ "#!/opt/py\nprint(1)\n".data := by
  decide

/-- If `q` is a Boolean prefix of `L ++ M`, either `q` fits inside `L`
(so `L = q ++ t`) or `q` extends past `L` (so `q = L ++ u` with `u` a
prefix of `M`). -/
theorem isPrefixOf_append_split (q : List Char) :
    ∀ (L M : List Char), q.isPrefixOf (L ++ M) = true →
      (∃ t, L = q ++ t) ∨ (∃ u, q = L ++ u ∧ u.isPrefixOf M = true) := by
  induction q with
  | nil => intro L M _; exact Or.inl ⟨L, rfl⟩
  | cons a q ih =>
    intro L M h
    cases L with
    | nil => exact Or.inr ⟨a :: q, rfl, h⟩
    | cons b L' =>
      rw [List.cons_append] at h
      simp only [List.isPrefixOf, Bool.and_eq_true, beq_iff_eq] at h
      obtain ⟨rfl, h2⟩ := h
      rcases ih L' M h2 with ⟨t, ht⟩ | ⟨u, hq, hu⟩
      · exact Or.inl ⟨t, by rw [ht, List.cons_append]⟩
      · exact Or.inr ⟨u, by rw [hq, List.cons_append], hu⟩

/-- Splitting a list at its first whitespace character is unique: two
decompositions into a whitespace-free head, one whitespace character and
a tail must agree. -/
theorem nonws_split_unique (L1 : List Char) :
    ∀ (L2 u1 u2 : List Char) (c1 c2 : Char),
      (∀ x ∈ L1, wsChar x = false) → (∀ x ∈ L2, wsChar x = false) →
      wsChar c1 = true → wsChar c2 = true →
      L1 ++ c1 :: u1 = L2 ++ c2 :: u2 → L1 = L2 ∧ c1 = c2 ∧ u1 = u2 := by
  induction L1 with
  | nil =>
    intro L2 u1 u2 c1 c2 h1 h2 hc1 hc2 heq
    cases L2 with
    | nil =>
      simp only [List.nil_append, List.cons.injEq] at heq
      exact ⟨rfl, heq.1, heq.2⟩
    | cons b L2' =>
      exfalso
      simp only [List.nil_append, List.cons_append, List.cons.injEq] at heq
      have hb : wsChar b = false := h2 b (List.mem_cons_self b L2')
      rw [← heq.1] at hb
      rw [hc1] at hb
      exact absurd hb (by simp)
  | cons a L1' ih =>
    intro L2 u1 u2 c1 c2 h1 h2 hc1 hc2 heq
    cases L2 with
    | nil =>
      exfalso
      simp only [List.cons_append, List.nil_append, List.cons.injEq] at heq
      have ha : wsChar a = false := h1 a (List.mem_cons_self a L1')
      rw [heq.1, hc2] at ha
      exact absurd ha (by simp)
    | cons b L2' =>
      simp only [List.cons_append, List.cons.injEq] at heq
      obtain ⟨rfl, heq2⟩ := heq
      obtain ⟨hL, hc, hu⟩ := ih L2' u1 u2 c1 c2
        (fun x hx => h1 x (List.mem_cons_of_mem a hx))
        (fun x hx => h2 x (List.mem_cons_of_mem a hx)) hc1 hc2 heq2
      exact ⟨by rw [hL], hc, hu⟩

/-- A whitespace-free interpreter path other than `/usr/bin/env`, followed
by a whitespace character, can never begin with the env-form directive
body `/usr/bin/env python` (which contains a space). -/
theorem env_pattern_no_match (exec : String) (c : Char) (rest : List Char)
    (hws : ∀ x ∈ exec.data, wsChar x = false)
    (hne : exec ≠ "/usr/bin/env")
    (hc : wsChar c = true) :
    ("/usr/bin/env python".data).isPrefixOf (exec.data ++ c :: rest) = false := by
  cases hq : ("/usr/bin/env python".data).isPrefixOf (exec.data ++ c :: rest) with
  | false => rfl
  | true =>
    exfalso
    rcases isPrefixOf_append_split "/usr/bin/env python".data exec.data (c :: rest) hq with
      ⟨t, ht⟩ | ⟨u, hqeq, hu⟩
    · have hmem : ' ' ∈ exec.data := by
        rw [ht]
        exact List.mem_append_left t (by decide)
      exact absurd (hws ' ' hmem) (by decide)
    · cases u with
      | nil =>
        rw [List.append_nil] at hqeq
        have hmem : ' ' ∈ exec.data := by
          rw [← hqeq]
          decide
        exact absurd (hws ' ' hmem) (by decide)
      | cons u0 u' =>
        simp only [List.isPrefixOf, Bool.and_eq_true, beq_iff_eq] at hu
        obtain ⟨huc, -⟩ := hu
        rw [huc] at hqeq
        have hdecomp : "/usr/bin/env".data ++ ' ' :: "python".data =
            exec.data ++ c :: u' := hqeq
        obtain ⟨hL, -, -⟩ := nonws_split_unique "/usr/bin/env".data exec.data
          "python".data u' ' ' c (by decide) hws (by decide) hc hdecomp
        apply hne
        calc exec = String.mk exec.data := rfl
          _ = String.mk "/usr/bin/env".data := by rw [← hL]
          _ = "/usr/bin/env" := rfl

/-- Against a whitespace-free interpreter path followed by a whitespace
character, the direct-path pattern either fails to match or the path is
exactly `/usr/bin/python`. -/
theorem py_pattern_match_eq (exec : String) (c : Char) (rest : List Char)
    (hws : ∀ x ∈ exec.data, wsChar x = false)
    (hc : wsChar c = true) :
    shebangMatch "/usr/bin/python".data (exec.data ++ c :: rest) = false ∨
      exec.data = "/usr/bin/python".data := by
  cases hq : ("/usr/bin/python".data).isPrefixOf (exec.data ++ c :: rest) with
  | false =>
    left
    simp only [shebangMatch, hq, Bool.false_and]
  | true =>
    rcases isPrefixOf_append_split "/usr/bin/python".data exec.data (c :: rest) hq with
      ⟨t, ht⟩ | ⟨u, hqeq, hu⟩
    · cases t with
      | nil =>
        right
        rw [ht, List.append_nil]
      | cons t0 t' =>
        left
        have ht0 : wsChar t0 = false :=
          hws t0 (by rw [ht]; exact List.mem_append_right _ (List.mem_cons_self t0 t'))
        rw [ht, List.append_assoc]
        show shebangMatch "/usr/bin/python".data
          ("/usr/bin/python".data ++ t0 :: (t' ++ c :: rest)) = false
        rw [shebangMatch_append]
        exact ht0
    · cases u with
      | nil =>
        right
        rw [List.append_nil] at hqeq
        exact hqeq.symm
      | cons u0 u' =>
        exfalso
        simp only [List.isPrefixOf, Bool.and_eq_true, beq_iff_eq] at hu
        obtain ⟨huc, -⟩ := hu
        rw [huc] at hqeq
        have hmem : c ∈ ("/usr/bin/python".data) := by
          rw [hqeq]
          exact List.mem_append_right _ (List.mem_cons_self c u')
        have hall : ∀ x ∈ ("/usr/bin/python".data), wsChar x = false := by decide
        rw [hall c hmem] at hc
        exact absurd hc (by decide)

/-- A rewritten shebang line (`#!` + whitespace-free interpreter path,
path not `/usr/bin/env`, followed by whitespace) is a fixed point of the
shebang rewriter. -/
theorem fix_shebang_rewritten_fixed (exec : String) (c : Char) (rest : List Char)
    (hws : ∀ x ∈ exec.data, wsChar x = false)
    (hne : exec ≠ "/usr/bin/env")
    (hc : wsChar c = true) :
    fix_shebang_contents exec (('#' :: '!' :: exec.data) ++ c :: rest) =
      ('#' :: '!' :: exec.data) ++ c :: rest := by
  have hs : ('#' :: '!' :: exec.data) ++ c :: rest =
      '#' :: '!' :: (exec.data ++ c :: rest) := by simp
  rw [hs]
  have henv : shebangMatch "#!/usr/bin/env python".data
      ('#' :: '!' :: (exec.data ++ c :: rest)) = false := by
    rw [show ("#!/usr/bin/env python".data : List Char) =
      '#' :: '!' :: "/usr/bin/env python".data from rfl, shebangMatch_cons2]
    simp only [shebangMatch, env_pattern_no_match exec c rest hws hne hc, Bool.false_and]
  rcases py_pattern_match_eq exec c rest hws hc with hfalse | heq
  · have hpy2 : shebangMatch "#!/usr/bin/python".data
        ('#' :: '!' :: (exec.data ++ c :: rest)) = false := by
      rw [show ("#!/usr/bin/python".data : List Char) =
        '#' :: '!' :: "/usr/bin/python".data from rfl, shebangMatch_cons2]
      exact hfalse
    simp only [fix_shebang_contents, hpy2, henv, Bool.false_eq_true, if_false]
  · rw [heq]
    have hs2 : ('#' :: '!' :: ("/usr/bin/python".data ++ c :: rest)) =
        "#!/usr/bin/python".data ++ c :: rest := by simp
    rw [hs2]
    have hm : shebangMatch "#!/usr/bin/python".data
        ("#!/usr/bin/python".data ++ c :: rest) = true := by
      rw [shebangMatch_append]
      exact hc
    simp only [fix_shebang_contents, hm, if_true]
    rw [replaceFirst_self_append]
    congr 1
    rw [string_data_append, heq]
    rfl

/-- C4 (amended): a file beginning with `#!/usr/bin/python` followed by
whitespace has that directive prefix replaced by `#!<target>`; a file
beginning with `#!/usr/bin/env python` followed by whitespace is rewritten
identically; a file beginning with `#!/usr/bin/python3.9` is left
unmodified (the direct-path pattern requires whitespace or end-of-file
immediately after `python`); a file beginning with `#!/usr/bin/env
python3` is left unmodified; and a second run changes neither rewritten
file, for any whitespace-free target path other than `/usr/bin/env`. -/
theorem fix_shebangs_spec (exec : String) (c : Char) (rest : List Char)
    (hws : ∀ x ∈ exec.data, wsChar x = false)
    (hne : exec ≠ "/usr/bin/env")
    (hc : wsChar c = true) :
    fix_shebang_contents exec ("#!/usr/bin/python".data ++ c :: rest) =
      ("#!" ++ exec).data ++ c :: rest ∧
    fix_shebang_contents exec ("#!/usr/bin/env python".data ++ c :: rest) =
      ("#!" ++ exec).data ++ c :: rest ∧
    (∀ rest2 : List Char,
      fix_shebang_contents exec ("#!/usr/bin/python3.9".data ++ rest2) =
        "#!/usr/bin/python3.9".data ++ rest2) ∧
    (∀ rest2 : List Char,
      fix_shebang_contents exec ("#!/usr/bin/env python3".data ++ rest2) =
        "#!/usr/bin/env python3".data ++ rest2) ∧
    fix_shebang_contents exec
        (fix_shebang_contents exec ("#!/usr/bin/python".data ++ c :: rest)) =
      fix_shebang_contents exec ("#!/usr/bin/python".data ++ c :: rest) ∧
    fix_shebang_contents exec
        (fix_shebang_contents exec ("#!/usr/bin/env python".data ++ c :: rest)) =
      fix_shebang_contents exec ("#!/usr/bin/env python".data ++ c :: rest) := by
  have hns : ("#!" ++ exec).data = '#' :: '!' :: exec.data := by
    rw [string_data_append]
    rfl
  have e1 : fix_shebang_contents exec ("#!/usr/bin/python".data ++ c :: rest) =
      ("#!" ++ exec).data ++ c :: rest := by
    have h1 : shebangMatch "#!/usr/bin/python".data
        ("#!/usr/bin/python".data ++ c :: rest) = true := by
      rw [shebangMatch_append]
      exact hc
    simp only [fix_shebang_contents, h1, if_true]
    rw [replaceFirst_self_append]
  have e2 : fix_shebang_contents exec ("#!/usr/bin/env python".data ++ c :: rest) =
      ("#!" ++ exec).data ++ c :: rest := by
    have h2 : shebangMatch "#!/usr/bin/python".data
        ("#!/usr/bin/env python".data ++ c :: rest) = false := rfl
    have h3 : shebangMatch "#!/usr/bin/env python".data
        ("#!/usr/bin/env python".data ++ c :: rest) = true := by
      rw [shebangMatch_append]
      exact hc
    simp only [fix_shebang_contents, h2, h3, Bool.false_eq_true, if_false, if_true]
    rw [replaceFirst_self_append]
  have efix : fix_shebang_contents exec (("#!" ++ exec).data ++ c :: rest) =
      ("#!" ++ exec).data ++ c :: rest := by
    rw [hns]
    exact fix_shebang_rewritten_fixed exec c rest hws hne hc
  refine ⟨e1, e2, fun rest2 => ?_, fun rest2 => ?_, ?_, ?_⟩
  · have h4 : shebangMatch "#!/usr/bin/python".data
        ("#!/usr/bin/python3.9".data ++ rest2) = false := rfl
    have h5 : shebangMatch "#!/usr/bin/env python".data
        ("#!/usr/bin/python3.9".data ++ rest2) = false := rfl
    simp only [fix_shebang_contents, h4, h5, Bool.false_eq_true, if_false]
  · have h6 : shebangMatch "#!/usr/bin/python".data
        ("#!/usr/bin/env python3".data ++ rest2) = false := rfl
    have h7 : shebangMatch "#!/usr/bin/env python".data
        ("#!/usr/bin/env python3".data ++ rest2) = false := rfl
    simp only [fix_shebang_contents, h6, h7, Bool.false_eq_true, if_false]
  · rw [e1]
    exact efix
  · rw [e2]
    exact efix

/-- Witness for the amended C4 at a concrete interpreter path and file
body. -/
theorem fix_shebangs_spec_witness :
    fix_shebang_contents "/usr/local/bin/python3"
        ("#!/usr/bin/python".data ++ '\n' :: "print(1)".data) =
      ("#!" ++ "/usr/local/bin/python3").data ++ '\n' :: "print(1)".data ∧
    fix_shebang_contents "/usr/local/bin/python3"
        ("#!/usr/bin/env python".data ++ '\n' :: "print(1)".data) =
      ("#!" ++ "/usr/local/bin/python3").data ++ '\n' :: "print(1)".data ∧
    (∀ rest2 : List Char,
      fix_shebang_contents "/usr/local/bin/python3" ("#!/usr/bin/python3.9".data ++ rest2) =
        "#!/usr/bin/python3.9".data ++ rest2) ∧
    (∀ rest2 : List Char,
      fix_shebang_contents "/usr/local/bin/python3" ("#!/usr/bin/env python3".data ++ rest2) =
        "#!/usr/bin/env python3".data ++ rest2) ∧
    fix_shebang_contents "/usr/local/bin/python3"
        (fix_shebang_contents "/usr/local/bin/python3"
          ("#!/usr/bin/python".data ++ '\n' :: "print(1)".data)) =
      fix_shebang_contents "/usr/local/bin/python3"
        ("#!/usr/bin/python".data ++ '\n' :: "print(1)".data) ∧
    fix_shebang_contents "/usr/local/bin/python3"
        (fix_shebang_contents "/usr/local/bin/python3"
          ("#!/usr/bin/env python".data ++ '\n' :: "print(1)".data)) =
      fix_shebang_contents "/usr/local/bin/python3"
        ("#!/usr/bin/env python".data ++ '\n' :: "print(1)".data) :=
  fix_shebangs_spec "/usr/local/bin/python3" '\n' "print(1)".data
    (by decide) (by decide) (by decide)
